import Mathlib

/-!
Shallow embedding of the upkeep privileged job-queue daemon
(`daemon/upkeep_daemon.py`) and of the client-side await loop
(`src/upkeep/api/maintenance.py`, `MaintenanceAPI._wait_for_result`).

Modelling conventions:
- Wall-clock time is discretised at the granularity of the watchdog tick
  (the Python loop sleeps one second per iteration); tick `n` carries an
  elapsed-seconds reading `elapsedAt n`.
- The external child process and the filesystem are an environment value:
  whether (and at which tick) the child is observed exited, its exit code
  and captured output, whether the skip-flag file is written by the client
  just before a given tick, and whether the child survives the graceful
  SIGTERM grace period.
- The unbounded Python `while` loops become fuel-indexed recursion; a
  distinguished outcome marks fuel exhaustion (the loop still running),
  and theorems supply enough fuel for the event under study.
- Side effects of the daemon (spawning the child, writing the in-flight
  status file, deleting the skip sentinel, signalling) are recorded as an
  event trace so that absence of a spawn is a provable statement.
- Python exceptions at the modelled fault points (reading or parsing the
  job file, the child spawn, writing the result file) are explicit
  environment inputs; `log` never raises in the source (it swallows its
  own errors) and is not modelled.
-/

namespace Upkeep

/-- The operation whitelist `ALLOWED_OPERATIONS` of `upkeep_daemon.py`:
each operation id maps to its fixed argument vector and timeout budget in
seconds. -/
def ALLOWED_OPERATIONS : List (String × (List String × Nat)) :=
  [ ("macos-check", (["--list-macos-updates"], 300)),
    ("macos-install", (["--install-macos-updates", "--assume-yes"], 1800)),
    ("brew-update", (["--brew", "--assume-yes"], 900)),
    ("brew-cleanup", (["--brew-cleanup", "--assume-yes"], 600)),
    ("mas-update", (["--mas", "--assume-yes"], 1200)),
    ("disk-verify", (["--verify-disk"], 300)),
    ("disk-repair", (["--repair-disk", "--assume-yes"], 600)),
    ("smart-check", (["--smart"], 300)),
    ("trim-logs", (["--trim-logs", "30", "--assume-yes"], 300)),
    ("trim-caches", (["--trim-caches", "30", "--assume-yes"], 300)),
    ("thin-tm", (["--thin-tm-snapshots", "--assume-yes"], 300)),
    ("spotlight-status", (["--spotlight-status"], 300)),
    ("spotlight-reindex", (["--spotlight-reindex", "--assume-yes"], 300)),
    ("dns-flush", (["--flush-dns", "--assume-yes"], 300)),
    ("periodic", (["--periodic", "--assume-yes"], 300)),
    ("space-report", (["--space-report"], 300)),
    ("browser-cache", (["--browser-cache", "--assume-yes"], 300)),
    ("dev-cache", (["--dev-cache", "--assume-yes"], 300)),
    ("dev-tools-cache", (["--dev-tools-cache", "--assume-yes"], 300)),
    ("mail-optimize", (["--mail-optimize", "--assume-yes"], 300)),
    ("messages-cache", (["--messages-cache", "--assume-yes"], 300)),
    ("wallpaper-aerials", (["--wallpaper-aerials", "--assume-yes"], 600)) ]

/-- Registry lookup, the `operation_id in ALLOWED_OPERATIONS` test plus the
subsequent `ALLOWED_OPERATIONS[operation_id]` read. -/
def lookupOp (op : String) : Option (List String × Nat) :=
  (ALLOWED_OPERATIONS.find? (fun p => p.1 == op)).map Prod.snd

/-- Path string of the external maintenance script (`MAINTAIN_SH`). -/
def MAINTAIN_SH : String := "/usr/local/lib/upkeep/upkeep.sh"

/-- A daemon result record, the dictionary built by `run_operation` and
completed by `process_job_file`.  Fields absent from the Python dict are
`none`. -/
structure RunResult where
  operation_id : String
  status : String
  error : Option String := none
  exit_code : Option Int := none
  stdout : Option String := none
  stderr : Option String := none
  job_id : Option String := none
deriving Repr, DecidableEq

/-- Observable side effects of the daemon while handling one job. -/
inductive DEvent where
  | spawn (cmd : List String)
  | writeStatus (job_id : String) (op : String)
  | deleteSkipFlag
  | terminate
  | kill
  | pkillDescendants
  | deleteStatusFile
deriving Repr, DecidableEq

/-- Environment of one `run_operation` call: behaviour of the child
process, of the clock, of the skip-flag writer, and of the spawn call.
`exitsAt = some k` means `proc.poll()` reports the child exited from
watchdog tick `k` on; `none` means the child never exits by itself.
`flagWriteAt n` means the client creates the skip-flag file just before
the daemon runs tick `n`.  `spawnFails = some msg` means `subprocess.Popen`
raises with message `msg`. -/
structure WatchEnv where
  exitsAt : Option Nat
  exitCode : Int
  stdoutS : String
  stderrS : String
  surviveTerm : Bool
  flagWriteAt : Nat → Bool
  elapsedAt : Nat → Nat
  spawnFails : Option String

/-- Whether `proc.poll()` reports the child exited at tick `n`. -/
def pollExited (env : WatchEnv) (n : Nat) : Bool :=
  match env.exitsAt with
  | none => false
  | some k => decide (k ≤ n)

/-- How the watchdog loop of `run_operation` ended. -/
inductive LoopOutcome where
  | exited
  | skipOut
  | timeoutOut
  | fuelOut
deriving Repr, DecidableEq

/-- Return value of the watchdog loop: how it ended, the state of the
skip-flag file afterwards, and the events it emitted. -/
structure LoopRes where
  outcome : LoopOutcome
  flag : Bool
  events : List DEvent
deriving Repr, DecidableEq

/-- Events of the skip branch: delete the sentinel, SIGTERM, SIGKILL when
the child survives the two-second grace period, then `pkill -P` for the
descendants. -/
def skipEvents (env : WatchEnv) : List DEvent :=
  [DEvent.deleteSkipFlag, DEvent.terminate]
    ++ (if env.surviveTerm then [DEvent.kill] else []) ++ [DEvent.pkillDescendants]

/-- Events of the timeout branch: SIGTERM, SIGKILL when the child survives
the grace period, then descendant cleanup. -/
def timeoutEvents (env : WatchEnv) : List DEvent :=
  [DEvent.terminate]
    ++ (if env.surviveTerm then [DEvent.kill] else []) ++ [DEvent.pkillDescendants]

/-- The watchdog loop of `run_operation` (`while proc.poll() is None`),
fuel-indexed.  Each tick first applies any pending client write of the
skip-flag file, then mirrors the Python check order: child exited, skip
flag present, elapsed time over budget, else sleep and loop. -/
def watchLoop (env : WatchEnv) (enforce : Bool) (timeoutS : Nat)
    (flag : Bool) (n : Nat) : Nat → LoopRes
  | 0 => ⟨LoopOutcome.fuelOut, flag, []⟩
  | Nat.succ fuel =>
    let flag1 := flag || env.flagWriteAt n
    if pollExited env n then ⟨LoopOutcome.exited, flag1, []⟩
    else if flag1 then ⟨LoopOutcome.skipOut, false, skipEvents env⟩
    else if enforce && decide (env.elapsedAt n > timeoutS) then
      ⟨LoopOutcome.timeoutOut, flag1, timeoutEvents env⟩
    else watchLoop env enforce timeoutS flag1 (n + 1) fuel

/-- Result of one `run_operation` call: the result dictionary, the emitted
event trace, and the state of the skip-flag file afterwards. -/
structure RunOut where
  result : RunResult
  events : List DEvent
  flagAfter : Bool
deriving Repr, DecidableEq

/-- ASCII lowercase of one character, the effect of the Python `lower`
call on the environment-variable values compared here. -/
def lowerChar (c : Char) : Char :=
  if c.isUpper then Char.ofNat (c.toNat + 32) else c

/-- ASCII lowercase of a string. -/
def lowerString (s : String) : String :=
  String.mk (s.data.map lowerChar)

/-- Resolution of the `ENFORCE_TIMEOUT` environment variable: absent
defaults to the string true. -/
def enforce_timeout_setting (v : Option String) : Bool :=
  lowerString (v.getD "true") == "true"

/-- Shallow embedding of `run_operation` of `upkeep_daemon.py`.  The
human-readable minute figures interpolated into the timeout error strings
are abstracted to fixed sentences; every field and branch decision is
otherwise as in the source.  In the timeout branch the source sets
`error`, `exit_code`, `stdout` and `stderr` but never reassigns
`result["status"]`, which therefore keeps its initial value. -/
def run_operation (operation_id job_id : String) (maintainShExists : Bool)
    (enforce : Bool) (env : WatchEnv) (flag0 : Bool) (fuel : Nat) : RunOut :=
  let base : RunResult := { operation_id := operation_id, status := "error" }
  match lookupOp operation_id with
  | none =>
    { result := { base with error := some ("Operation not allowed: " ++ operation_id) },
      events := [], flagAfter := flag0 }
  | some (args, timeoutS) =>
    if maintainShExists = false then
      { result := { base with error := some ("upkeep.sh not found at " ++ MAINTAIN_SH) },
        events := [], flagAfter := flag0 }
    else
      match env.spawnFails with
      | some msg =>
        { result := { base with error := some msg, exit_code := some (-1) },
          events := [], flagAfter := flag0 }
      | none =>
        let command := MAINTAIN_SH :: args
        let lr := watchLoop env enforce timeoutS flag0 0 fuel
        let pre := [DEvent.spawn command, DEvent.writeStatus job_id operation_id]
        match lr.outcome with
        | LoopOutcome.skipOut =>
          { result :=
              { base with
                status := "skipped",
                error := some "Operation skipped by user",
                exit_code := some (-125),
                stdout := some "",
                stderr := some "Operation skipped by user request" },
            events := pre ++ lr.events ++ [DEvent.deleteStatusFile],
            flagAfter := lr.flag }
        | LoopOutcome.timeoutOut =>
          { result :=
              { base with
                error := some "Operation timed out",
                exit_code := some (-124),
                stdout := some "",
                stderr := some "Operation exceeded timeout and was terminated" },
            events := pre ++ lr.events ++ [DEvent.deleteStatusFile],
            flagAfter := lr.flag }
        | LoopOutcome.exited =>
          { result :=
              { base with
                status := if env.exitCode = 0 then "success" else "failed",
                exit_code := some env.exitCode,
                stdout := some env.stdoutS,
                stderr := some env.stderrS },
            events := pre ++ lr.events ++ [DEvent.deleteStatusFile],
            flagAfter := lr.flag }
        | LoopOutcome.fuelOut =>
          { result := base, events := pre ++ lr.events, flagAfter := lr.flag }

/-- A Python exception value at a modelled fault point. -/
inductive PExn where
  | jsonDecode
  | otherExn (msg : String)
deriving Repr, DecidableEq

/-- Parsed content of a job file: the JSON value of the `operation_id`
key, if present and a string, plus all other key-value pairs of the
payload, which `process_job_file` never reads. -/
structure JobJson where
  operation_id : Option String
  extra : List (String × String)
deriving Repr, DecidableEq

/-- Python truthiness of `job.get("operation_id")`: absent (`None`) and
the empty string are falsy. -/
def truthy : Option String → Bool
  | none => false
  | some s => !(s == "")

/-- Effects of `process_job_file` on the queue directory: the result file
written for this job id (if any), whether the job file is gone afterwards,
the daemon events, and the state of the skip-flag file. -/
structure JobEffects where
  resultWritten : Option RunResult
  jobDeleted : Bool
  events : List DEvent
  flagAfter : Bool
deriving Repr, DecidableEq

/-- Shallow embedding of `process_job_file`.  `readRes` is the outcome of
opening and JSON-parsing the job file; `writeFails` is an exception raised
by writing the result file, if any.  The second component of the return
value is the exception propagating out of the call: the source wraps the
whole pipeline in `except json.JSONDecodeError` plus a catch-all
`except Exception`, and its `finally` block always unlinks the job file,
ignoring `FileNotFoundError` (unlinking as root in the daemon-owned queue
directory is modelled as infallible apart from that caught case). -/
def process_job_file (readRes : Except PExn JobJson) (writeFails : Option PExn)
    (job_id : String) (maintainShExists enforce : Bool) (env : WatchEnv)
    (flag0 : Bool) (fuel : Nat) : JobEffects × Option PExn :=
  let eff : JobEffects :=
    match readRes with
    | Except.error _ =>
      { resultWritten := none, jobDeleted := true, events := [], flagAfter := flag0 }
    | Except.ok job =>
      if truthy job.operation_id = false then
        { resultWritten := none, jobDeleted := true, events := [], flagAfter := flag0 }
      else
        let op := job.operation_id.getD ""
        let out := run_operation op job_id maintainShExists enforce env flag0 fuel
        match writeFails with
        | some _ =>
          { resultWritten := none, jobDeleted := true,
            events := out.events, flagAfter := out.flagAfter }
        | none =>
          { resultWritten := some { out.result with job_id := some job_id },
            jobDeleted := true, events := out.events, flagAfter := out.flagAfter }
  (eff, none)

/-- A job file found by the startup scan: its name, its modification time
in seconds, and whether `stat` succeeds on it (the per-file `try` of the
source). -/
structure JobFileInfo where
  name : String
  mtime : Nat
  statOk : Bool
deriving Repr, DecidableEq

/-- Effects of `cleanup_stale_jobs`: which job files survive, which are
unlinked, and the result files it writes (none, by the code: the function
only deletes). -/
structure CleanupOut where
  kept : List JobFileInfo
  deleted : List JobFileInfo
  resultsWritten : List RunResult
deriving Repr, DecidableEq

/-- The stale threshold of `cleanup_stale_jobs`, in seconds. -/
def stale_threshold : Nat := 300

/-- Resolution of the `CLEAR_STALE_JOBS` environment variable: absent
defaults to the string true. -/
def clear_stale_jobs_setting (v : Option String) : Bool :=
  lowerString (v.getD "true") == "true"

/-- Whether `cleanup_stale_jobs` deletes a given job file: `stat`
succeeded and the modification age strictly exceeds the threshold.
Ages are natural numbers; a file modified in the future has truncated
age zero, matching the Python float comparison never exceeding the
threshold there. -/
def isStale (now : Nat) (f : JobFileInfo) : Bool :=
  f.statOk && decide (now - f.mtime > stale_threshold)

/-- Shallow embedding of `cleanup_stale_jobs`: disabled via the
environment variable it keeps everything; otherwise it unlinks exactly
the stale files and writes no result file for any of them. -/
def cleanup_stale_jobs (envVar : Option String) (now : Nat)
    (files : List JobFileInfo) : CleanupOut :=
  if clear_stale_jobs_setting envVar = false then
    { kept := files, deleted := [], resultsWritten := [] }
  else
    { kept := files.filter (fun f => !isStale now f),
      deleted := files.filter (fun f => isStale now f),
      resultsWritten := [] }

/-- State of the result file as seen by one poll of the client await
loop: absent, present but not yet JSON-parseable (partial write), or
parseable with payload `r`. -/
inductive RFile where
  | absent
  | unparseable
  | ready (r : RunResult)
deriving Repr, DecidableEq

/-- Environment of one `_wait_for_result` call, indexed by loop
iteration: the cancel and skip request flags of the API object, the state
of the result file, whether unlinking it would raise, and the elapsed
seconds reading of that iteration. -/
structure AwaitEnv where
  cancelAt : Nat → Bool
  skipAt : Nat → Bool
  fileAt : Nat → RFile
  unlinkFails : Nat → Bool
  elapsedAt : Nat → Nat

/-- Outcome of the client await loop.  `got r deleted` is a normal
return of the parsed result, `deleted` recording whether the result file
was successfully unlinked (the source swallows unlink errors).
`timedOut` is the raised `TimeoutError`; `stillPolling` marks fuel
exhaustion of the model while the real loop would keep polling. -/
inductive AwaitOutcome where
  | cancelled
  | skippedOut
  | got (r : RunResult) (deleted : Bool)
  | timedOut
  | stillPolling
deriving Repr, DecidableEq

/-- Shallow embedding of the `while True` loop of
`MaintenanceAPI._wait_for_result`.  Check order per iteration follows the
source: cancel flag, skip flag, result file present (parse or treat a
parse failure as not-ready and continue, which skips the timeout check of
that iteration), else compare elapsed time against the caller timeout and
either raise or sleep and loop. -/
def waitLoop (env : AwaitEnv) (timeout : Nat) (n : Nat) : Nat → AwaitOutcome
  | 0 => AwaitOutcome.stillPolling
  | Nat.succ fuel =>
    if env.cancelAt n then AwaitOutcome.cancelled
    else if env.skipAt n then AwaitOutcome.skippedOut
    else
      match env.fileAt n with
      | RFile.ready r => AwaitOutcome.got r (!env.unlinkFails n)
      | RFile.unparseable => waitLoop env timeout (n + 1) fuel
      | RFile.absent =>
        if decide (env.elapsedAt n > timeout) then AwaitOutcome.timedOut
        else waitLoop env timeout (n + 1) fuel

/-- Spawn commands among a daemon event trace. -/
def spawnsOf (evs : List DEvent) : List (List String) :=
  evs.filterMap (fun e =>
    match e with
    | DEvent.spawn c => some c
    | _ => none)

/-- Concrete environment: the child exits on its own at tick 2 with exit
code 0, nobody writes the skip flag, one second elapses per tick. -/
def envPlain : WatchEnv :=
  { exitsAt := some 2, exitCode := 0, stdoutS := "ok", stderrS := "",
    surviveTerm := false, flagWriteAt := fun _ => false,
    elapsedAt := fun n => n, spawnFails := none }

/-- Concrete environment: the child never exits and the clock races ahead
one thousand seconds per tick, so every whitelisted timeout budget is
exceeded by tick 2. -/
def envHang : WatchEnv :=
  { exitsAt := none, exitCode := 0, stdoutS := "", stderrS := "",
    surviveTerm := true, flagWriteAt := fun _ => false,
    elapsedAt := fun n => 1000 * n, spawnFails := none }

/-- Concrete environment: the child never exits, the client writes the
skip flag just before tick 1, and the child survives the SIGTERM grace
period. -/
def envSkipReq : WatchEnv :=
  { exitsAt := none, exitCode := 0, stdoutS := "", stderrS := "",
    surviveTerm := true, flagWriteAt := fun n => n == 1,
    elapsedAt := fun n => n, spawnFails := none }

/-- Concrete environment for the skip-sentinel race: the client writes
the skip flag just before tick 2, but the child is observed exited at
that same tick, so the watchdog breaks out without ever consuming the
sentinel. -/
def envRace : WatchEnv :=
  { exitsAt := some 2, exitCode := 0, stdoutS := "done", stderrS := "",
    surviveTerm := false, flagWriteAt := fun n => n == 2,
    elapsedAt := fun n => n, spawnFails := none }

/-- Concrete environment: a long-running child, no skip-flag writes
during this run, one second per tick. -/
def envLong : WatchEnv :=
  { exitsAt := none, exitCode := 0, stdoutS := "", stderrS := "",
    surviveTerm := false, flagWriteAt := fun _ => false,
    elapsedAt := fun n => n, spawnFails := none }

/-- Concrete await-loop environment: the result file is present but not
yet parseable for the first three polls, then parses; no cancel or skip
request; unlinking works. -/
def aenvRetry : AwaitEnv :=
  { cancelAt := fun _ => false, skipAt := fun _ => false,
    fileAt := fun n =>
      if n < 3 then RFile.unparseable
      else RFile.ready { operation_id := "dns-flush", status := "success", exit_code := some 0 },
    unlinkFails := fun _ => false, elapsedAt := fun n => n }

/-- Concrete await-loop environment: the result file never appears, no
cancel or skip request, one second elapses per poll. -/
def aenvAbsent : AwaitEnv :=
  { cancelAt := fun _ => false, skipAt := fun _ => false,
    fileAt := fun _ => RFile.absent,
    unlinkFails := fun _ => false, elapsedAt := fun n => n }

/-! ## Helper lemmas about the watchdog loop -/

/-- One unfolding of the watchdog loop at positive fuel. -/
lemma watchLoop_succ (env : WatchEnv) (enforce : Bool) (tS : Nat)
    (flag : Bool) (n fuel : Nat) :
    watchLoop env enforce tS flag n (fuel + 1) =
      (let flag1 := flag || env.flagWriteAt n
       if pollExited env n then ⟨LoopOutcome.exited, flag1, []⟩
       else if flag1 then ⟨LoopOutcome.skipOut, false, skipEvents env⟩
       else if enforce && decide (env.elapsedAt n > tS) then
         ⟨LoopOutcome.timeoutOut, flag1, timeoutEvents env⟩
       else watchLoop env enforce tS flag1 (n + 1) fuel) := rfl

/-- If through relative tick `d` the child never reports exited, the
timeout guard never fires, and the skip flag is present initially or
written at some tick at or before `d`, then the watchdog ends in the skip
branch having consumed the flag. -/
lemma watchLoop_skip_fires (env : WatchEnv) (enforce : Bool) (tS : Nat) :
    ∀ (d start : Nat) (flag : Bool) (fuel : Nat), d < fuel →
    (∀ m, m ≤ d → pollExited env (start + m) = false) →
    (∀ m, m ≤ d → (enforce && decide (env.elapsedAt (start + m) > tS)) = false) →
    (flag = true ∨ ∃ m, m ≤ d ∧ env.flagWriteAt (start + m) = true) →
    watchLoop env enforce tS flag start fuel =
      ⟨LoopOutcome.skipOut, false, skipEvents env⟩ := by
  intro d
  induction d with
  | zero =>
    intro start flag fuel hfuel hpoll htime hflag
    obtain ⟨fuel, rfl⟩ : ∃ f, fuel = f + 1 := ⟨fuel - 1, by omega⟩
    have hp : pollExited env start = false := by simpa using hpoll 0 (le_refl 0)
    have hfl : (flag || env.flagWriteAt start) = true := by
      rcases hflag with h | ⟨m, hm, hw⟩
      · simp [h]
      · have hm0 : m = 0 := Nat.le_zero.mp hm
        subst hm0
        simp only [Nat.add_zero] at hw
        simp [hw]
    rw [watchLoop_succ]
    simp [hp, hfl]
  | succ d ih =>
    intro start flag fuel hfuel hpoll htime hflag
    obtain ⟨fuel, rfl⟩ : ∃ f, fuel = f + 1 := ⟨fuel - 1, by omega⟩
    have hp : pollExited env start = false := by simpa using hpoll 0 (Nat.zero_le _)
    by_cases hfl : (flag || env.flagWriteAt start) = true
    · rw [watchLoop_succ]
      simp [hp, hfl]
    · have hfl' : (flag || env.flagWriteAt start) = false := by
        revert hfl
        cases flag || env.flagWriteAt start <;> simp
      have hflag0 : flag = false := by
        revert hfl'
        cases flag <;> simp
      have hw0 : env.flagWriteAt start = false := by
        revert hfl'
        cases flag <;> cases h : env.flagWriteAt start <;> simp
      have ht : (enforce && decide (env.elapsedAt start > tS)) = false := by
        simpa using htime 0 (Nat.zero_le _)
      have hrec : watchLoop env enforce tS false (start + 1) fuel =
          ⟨LoopOutcome.skipOut, false, skipEvents env⟩ := by
        apply ih (start + 1) false fuel (by omega)
        · intro m hm
          have h := hpoll (m + 1) (by omega)
          rwa [show start + (m + 1) = start + 1 + m by omega] at h
        · intro m hm
          have h := htime (m + 1) (by omega)
          rwa [show start + (m + 1) = start + 1 + m by omega] at h
        · rcases hflag with h | ⟨m, hm, hw⟩
          · rw [hflag0] at h
            exact absurd h (by simp)
          · right
            cases m with
            | zero =>
              simp only [Nat.add_zero] at hw
              rw [hw0] at hw
              exact absurd hw (by simp)
            | succ m =>
              refine ⟨m, by omega, ?_⟩
              rwa [show start + (m + 1) = start + 1 + m by omega] at hw
      rw [watchLoop_succ]
      simp only [hp, hfl', ht]
      simpa using hrec

/-- If through relative tick `d` the child never reports exited and the
skip flag is never present, and the timeout guard holds at some tick at
or before `d`, the watchdog ends in the timeout branch. -/
lemma watchLoop_timeout_fires (env : WatchEnv) (enforce : Bool) (tS : Nat) :
    ∀ (d start : Nat) (fuel : Nat), d < fuel →
    (∀ m, m ≤ d → pollExited env (start + m) = false) →
    (∀ m, m ≤ d → env.flagWriteAt (start + m) = false) →
    (∃ m, m ≤ d ∧ (enforce && decide (env.elapsedAt (start + m) > tS)) = true) →
    watchLoop env enforce tS false start fuel =
      ⟨LoopOutcome.timeoutOut, false, timeoutEvents env⟩ := by
  intro d
  induction d with
  | zero =>
    intro start fuel hfuel hpoll hwrite htime
    obtain ⟨fuel, rfl⟩ : ∃ f, fuel = f + 1 := ⟨fuel - 1, by omega⟩
    have hp : pollExited env start = false := by simpa using hpoll 0 (le_refl 0)
    have hw : env.flagWriteAt start = false := by simpa using hwrite 0 (le_refl 0)
    obtain ⟨m, hm, ht⟩ := htime
    have hm0 : m = 0 := Nat.le_zero.mp hm
    subst hm0
    simp only [Nat.add_zero] at ht
    rw [watchLoop_succ]
    simp [hp, hw, ht]
  | succ d ih =>
    intro start fuel hfuel hpoll hwrite htime
    obtain ⟨fuel, rfl⟩ : ∃ f, fuel = f + 1 := ⟨fuel - 1, by omega⟩
    have hp : pollExited env start = false := by simpa using hpoll 0 (Nat.zero_le _)
    have hw : env.flagWriteAt start = false := by simpa using hwrite 0 (Nat.zero_le _)
    by_cases ht0 : (enforce && decide (env.elapsedAt start > tS)) = true
    · rw [watchLoop_succ]
      simp [hp, hw, ht0]
    · have ht0' : (enforce && decide (env.elapsedAt start > tS)) = false := by
        revert ht0
        cases enforce && decide (env.elapsedAt start > tS) <;> simp
      have hrec : watchLoop env enforce tS false (start + 1) fuel =
          ⟨LoopOutcome.timeoutOut, false, timeoutEvents env⟩ := by
        apply ih (start + 1) fuel (by omega)
        · intro m hm
          have h := hpoll (m + 1) (by omega)
          rwa [show start + (m + 1) = start + 1 + m by omega] at h
        · intro m hm
          have h := hwrite (m + 1) (by omega)
          rwa [show start + (m + 1) = start + 1 + m by omega] at h
        · obtain ⟨m, hm, ht⟩ := htime
          cases m with
          | zero =>
            simp only [Nat.add_zero] at ht
            exact absurd ht (by simp [ht0'])
          | succ m =>
            refine ⟨m, by omega, ?_⟩
            rwa [show start + (m + 1) = start + 1 + m by omega] at ht
      rw [watchLoop_succ]
      simp only [hp, hw, ht0']
      simpa using hrec

/-- If the child is first observed exited at relative tick `d`, and before
that tick the skip flag was never present and the timeout guard never
fired, the watchdog ends in the normal-exit branch with an empty event
list. -/
lemma watchLoop_exit_fires (env : WatchEnv) (enforce : Bool) (tS : Nat) :
    ∀ (d start : Nat) (fuel : Nat), d < fuel →
    (∀ m, m < d → pollExited env (start + m) = false) →
    pollExited env (start + d) = true →
    (∀ m, m < d → env.flagWriteAt (start + m) = false) →
    (∀ m, m < d → (enforce && decide (env.elapsedAt (start + m) > tS)) = false) →
    watchLoop env enforce tS false start fuel =
      ⟨LoopOutcome.exited, env.flagWriteAt (start + d), []⟩ := by
  intro d
  induction d with
  | zero =>
    intro start fuel hfuel hpoll hexit hwrite htime
    obtain ⟨fuel, rfl⟩ : ∃ f, fuel = f + 1 := ⟨fuel - 1, by omega⟩
    simp only [Nat.add_zero] at hexit
    rw [watchLoop_succ]
    simp [hexit]
  | succ d ih =>
    intro start fuel hfuel hpoll hexit hwrite htime
    obtain ⟨fuel, rfl⟩ : ∃ f, fuel = f + 1 := ⟨fuel - 1, by omega⟩
    have hp : pollExited env start = false := by simpa using hpoll 0 (Nat.succ_pos d)
    have hw : env.flagWriteAt start = false := by simpa using hwrite 0 (Nat.succ_pos d)
    have ht : (enforce && decide (env.elapsedAt start > tS)) = false := by
      simpa using htime 0 (Nat.succ_pos d)
    have hrec : watchLoop env enforce tS false (start + 1) fuel =
        ⟨LoopOutcome.exited, env.flagWriteAt (start + 1 + d), []⟩ := by
      apply ih (start + 1) fuel (by omega)
      · intro m hm
        have h := hpoll (m + 1) (by omega)
        rwa [show start + (m + 1) = start + 1 + m by omega] at h
      · rwa [show start + (d + 1) = start + 1 + d by omega] at hexit
      · intro m hm
        have h := hwrite (m + 1) (by omega)
        rwa [show start + (m + 1) = start + 1 + m by omega] at h
      · intro m hm
        have h := htime (m + 1) (by omega)
        rwa [show start + (m + 1) = start + 1 + m by omega] at h
    rw [watchLoop_succ]
    simp only [hp, hw, ht]
    rw [show start + (d + 1) = start + 1 + d by omega]
    simpa using hrec

/-- Whenever the watchdog ends in the skip branch, the skip-flag file is
absent afterwards: the sentinel is consumed at the tick it is observed. -/
lemma watchLoop_skipOut_flag (env : WatchEnv) (enforce : Bool) (tS : Nat) :
    ∀ (fuel n : Nat) (flag : Bool),
    (watchLoop env enforce tS flag n fuel).outcome = LoopOutcome.skipOut →
    (watchLoop env enforce tS flag n fuel).flag = false := by
  intro fuel
  induction fuel with
  | zero =>
    intro n flag h
    simp [watchLoop] at h
  | succ fuel ih =>
    intro n flag h
    rw [watchLoop_succ] at h ⊢
    by_cases hp : pollExited env n = true
    · simp [hp] at h
    · have hp' : pollExited env n = false := by
        revert hp
        cases pollExited env n <;> simp
      by_cases hf : (flag || env.flagWriteAt n) = true
      · simp [hp', hf]
      · have hf' : (flag || env.flagWriteAt n) = false := by
          revert hf
          cases flag || env.flagWriteAt n <;> simp
        by_cases htg : (enforce && decide (env.elapsedAt n > tS)) = true
        · simp [hp', hf', htg] at h
        · have htg' : (enforce && decide (env.elapsedAt n > tS)) = false := by
            revert htg
            cases enforce && decide (env.elapsedAt n > tS) <;> simp
          simp only [hp', hf', htg'] at h ⊢
          simp only [Bool.false_eq_true, if_false] at h ⊢
          exact ih (n + 1) false h

/-- The watchdog loop itself never emits a spawn event. -/
lemma spawnsOf_watchLoop (env : WatchEnv) (enforce : Bool) (tS : Nat) :
    ∀ (fuel n : Nat) (flag : Bool),
    spawnsOf (watchLoop env enforce tS flag n fuel).events = [] := by
  intro fuel
  induction fuel with
  | zero =>
    intro n flag
    simp [watchLoop, spawnsOf]
  | succ fuel ih =>
    intro n flag
    rw [watchLoop_succ]
    by_cases hp : pollExited env n = true
    · simp [hp, spawnsOf]
    · have hp' : pollExited env n = false := by
        revert hp
        cases pollExited env n <;> simp
      by_cases hf : (flag || env.flagWriteAt n) = true
      · simp only [hp', hf]
        cases hst : env.surviveTerm <;>
          simp [skipEvents, spawnsOf, hst, Bool.false_eq_true, if_false]
      · have hf' : (flag || env.flagWriteAt n) = false := by
          revert hf
          cases flag || env.flagWriteAt n <;> simp
        by_cases htg : (enforce && decide (env.elapsedAt n > tS)) = true
        · simp only [hp', hf', htg]
          cases hst : env.surviveTerm <;>
            simp [timeoutEvents, spawnsOf, hst, Bool.false_eq_true, if_false]
        · have htg' : (enforce && decide (env.elapsedAt n > tS)) = false := by
            revert htg
            cases enforce && decide (env.elapsedAt n > tS) <;> simp
          simp only [hp', hf', htg', Bool.false_eq_true, if_false]
          exact ih (n + 1) false

/-- Characterisation of the spawn events of one `run_operation` call: the
child command is spawned exactly when the registry lookup hits, the
maintenance script exists and `Popen` does not raise, and the command is
the script path followed by the fixed registry argument vector.  In
particular the spawned command is a function of the operation id alone. -/
lemma spawnsOf_run_operation (op jid : String) (mse enf : Bool) (env : WatchEnv)
    (flag : Bool) (fuel : Nat) :
    spawnsOf (run_operation op jid mse enf env flag fuel).events =
      (match lookupOp op with
       | none => []
       | some (args, _) =>
         if mse && env.spawnFails.isNone then [MAINTAIN_SH :: args] else []) := by
  cases hlk : lookupOp op with
  | none => simp [run_operation, hlk, spawnsOf]
  | some p =>
    obtain ⟨args, tS⟩ := p
    cases mse with
    | false => simp [run_operation, hlk, spawnsOf]
    | true =>
      cases hsp : env.spawnFails with
      | some msg => simp [run_operation, hlk, hsp, spawnsOf]
      | none =>
        have hsw := spawnsOf_watchLoop env enf tS fuel 0 flag
        simp only [run_operation, hlk, hsp]
        cases ho : (watchLoop env enf tS flag 0 fuel).outcome <;>
          simp_all [spawnsOf, List.filterMap_append]

/-- The spawn events of `process_job_file` depend only on the truthiness
and value of the `operation_id` field of the payload, never on the job id
or on the rest of the payload. -/
lemma spawnsOf_process_job_file (j : JobJson) (wf : Option PExn) (jid : String)
    (mse enf : Bool) (env : WatchEnv) (flag0 : Bool) (fuel : Nat) :
    spawnsOf (process_job_file (Except.ok j) wf jid mse enf env flag0 fuel).1.events =
      (if truthy j.operation_id then
        (match lookupOp (j.operation_id.getD "") with
         | none => []
         | some (args, _) =>
           if mse && env.spawnFails.isNone then [MAINTAIN_SH :: args] else [])
       else []) := by
  cases htr : truthy j.operation_id with
  | false =>
    cases wf <;> simp [process_job_file, htr, spawnsOf]
  | true =>
    have hr := spawnsOf_run_operation (j.operation_id.getD "") jid mse enf env flag0 fuel
    cases wf <;> simp_all [process_job_file, htr]

/-! ## Helper lemmas about the client await loop -/

/-- One unfolding of the await loop at positive fuel. -/
lemma waitLoop_succ (env : AwaitEnv) (timeout : Nat) (n fuel : Nat) :
    waitLoop env timeout n (fuel + 1) =
      (if env.cancelAt n then AwaitOutcome.cancelled
       else if env.skipAt n then AwaitOutcome.skippedOut
       else
         match env.fileAt n with
         | RFile.ready r => AwaitOutcome.got r (!env.unlinkFails n)
         | RFile.unparseable => waitLoop env timeout (n + 1) fuel
         | RFile.absent =>
           if decide (env.elapsedAt n > timeout) then AwaitOutcome.timedOut
           else waitLoop env timeout (n + 1) fuel) := rfl

/-- If the result file is unparseable for the polls before relative poll
`d` and becomes parseable at poll `d`, and no cancel or skip is requested,
the await loop keeps polling and returns the parsed result, deleting the
file. -/
lemma waitLoop_ready_fires (env : AwaitEnv) (t : Nat) (r : RunResult)
    (hnc : ∀ n, env.cancelAt n = false) (hns : ∀ n, env.skipAt n = false) :
    ∀ (d start fuel : Nat), d < fuel →
    (∀ m, m < d → env.fileAt (start + m) = RFile.unparseable) →
    env.fileAt (start + d) = RFile.ready r →
    env.unlinkFails (start + d) = false →
    waitLoop env t start fuel = AwaitOutcome.got r true := by
  intro d
  induction d with
  | zero =>
    intro start fuel hfuel hunp hready hunl
    obtain ⟨fuel, rfl⟩ : ∃ f, fuel = f + 1 := ⟨fuel - 1, by omega⟩
    simp only [Nat.add_zero] at hready hunl
    rw [waitLoop_succ]
    simp [hnc start, hns start, hready, hunl]
  | succ d ih =>
    intro start fuel hfuel hunp hready hunl
    obtain ⟨fuel, rfl⟩ : ∃ f, fuel = f + 1 := ⟨fuel - 1, by omega⟩
    have hu : env.fileAt start = RFile.unparseable := by
      simpa using hunp 0 (Nat.succ_pos d)
    have hrec : waitLoop env t (start + 1) fuel = AwaitOutcome.got r true := by
      apply ih (start + 1) fuel (by omega)
      · intro m hm
        have h := hunp (m + 1) (by omega)
        rwa [show start + (m + 1) = start + 1 + m by omega] at h
      · rwa [show start + (d + 1) = start + 1 + d by omega] at hready
      · rwa [show start + (d + 1) = start + 1 + d by omega] at hunl
    rw [waitLoop_succ]
    simp [hnc start, hns start, hu, hrec]

/-- Inversion of the raised await-timeout: when no cancel or skip is
requested, `TimeoutError` is raised only at a poll where the result file
is absent with the elapsed time over budget, and at no earlier poll was a
parseable result file present. -/
lemma waitLoop_timedOut_inv (env : AwaitEnv) (t : Nat)
    (hnc : ∀ n, env.cancelAt n = false) (hns : ∀ n, env.skipAt n = false) :
    ∀ (fuel start : Nat), waitLoop env t start fuel = AwaitOutcome.timedOut →
    ∃ n, start ≤ n ∧ env.elapsedAt n > t ∧
      ∀ m, start ≤ m → m ≤ n → ∀ r, env.fileAt m ≠ RFile.ready r := by
  intro fuel
  induction fuel with
  | zero =>
    intro start h
    simp [watchLoop, waitLoop] at h
  | succ fuel ih =>
    intro start h
    rw [waitLoop_succ] at h
    simp only [hnc start, hns start, Bool.false_eq_true, if_false] at h
    cases hf : env.fileAt start with
    | ready r => simp [hf] at h
    | unparseable =>
      simp only [hf] at h
      obtain ⟨n, hn1, hn2, hn3⟩ := ih (start + 1) h
      refine ⟨n, by omega, hn2, ?_⟩
      intro m hm1 hm2 r
      rcases Nat.eq_or_lt_of_le hm1 with heq | hlt
      · rw [← heq, hf]
        intro hcon
        exact RFile.noConfusion hcon
      · exact hn3 m (by omega) hm2 r
    | absent =>
      simp only [hf] at h
      by_cases hel : decide (env.elapsedAt start > t) = true
      · refine ⟨start, le_refl start, by simpa using hel, ?_⟩
        intro m hm1 hm2 r
        have : m = start := by omega
        rw [this, hf]
        intro hcon
        exact RFile.noConfusion hcon
      · have hel' : decide (env.elapsedAt start > t) = false := by
          revert hel
          cases decide (env.elapsedAt start > t) <;> simp
        simp only [hel', Bool.false_eq_true, if_false] at h
        obtain ⟨n, hn1, hn2, hn3⟩ := ih (start + 1) h
        refine ⟨n, by omega, hn2, ?_⟩
        intro m hm1 hm2 r
        rcases Nat.eq_or_lt_of_le hm1 with heq | hlt
        · rw [← heq, hf]
          intro hcon
          exact RFile.noConfusion hcon
        · exact hn3 m (by omega) hm2 r

/-- When the result file never appears and no cancel or skip is ever
requested, the await loop can only raise the timeout error or still be
polling; it never returns a result. -/
lemma waitLoop_absent_no_result (env : AwaitEnv) (t : Nat)
    (hnc : ∀ n, env.cancelAt n = false) (hns : ∀ n, env.skipAt n = false)
    (habs : ∀ n, env.fileAt n = RFile.absent) :
    ∀ (fuel start : Nat),
    waitLoop env t start fuel = AwaitOutcome.timedOut ∨
      waitLoop env t start fuel = AwaitOutcome.stillPolling := by
  intro fuel
  induction fuel with
  | zero =>
    intro start
    right
    rfl
  | succ fuel ih =>
    intro start
    rw [waitLoop_succ]
    simp only [hnc start, hns start, habs start, Bool.false_eq_true, if_false]
    by_cases hel : decide (env.elapsedAt start > t) = true
    · left
      simp [hel]
    · have hel' : decide (env.elapsedAt start > t) = false := by
        revert hel
        cases decide (env.elapsedAt start > t) <;> simp
      simp only [hel', Bool.false_eq_true, if_false]
      exact ih (start + 1)

/-! ## Claim theorems -/

/-- C1: for every job whose `operation_id` is not a key of the operation
registry, daemon processing writes a Result with status error and error
message prefix Operation not allowed followed by the operation id, and no
child process is ever spawned for that job. -/
theorem C1_unknown_operation_rejected (job : JobJson) (op job_id : String)
    (mse enf : Bool) (env : WatchEnv) (flag0 : Bool) (fuel : Nat)
    (hop : job.operation_id = some op) (hne : op ≠ "")
    (hmiss : lookupOp op = none) :
    (∃ r, (process_job_file (Except.ok job) none job_id mse enf env flag0 fuel).1.resultWritten
        = some r ∧
      r.status = "error" ∧ r.error = some ("Operation not allowed: " ++ op)) ∧
    (∀ cmd, DEvent.spawn cmd ∉
      (process_job_file (Except.ok job) none job_id mse enf env flag0 fuel).1.events) := by
  have htr : truthy job.operation_id = true := by
    rw [hop]
    simp [truthy, hne]
  have hget : job.operation_id.getD "" = op := by
    rw [hop]
    rfl
  simp only [process_job_file, htr, hget]
  simp only [run_operation, hmiss]
  constructor
  · exact ⟨_, rfl, rfl, rfl⟩
  · intro cmd
    simp

/-- C1 witness: the rejection theorem applied to the concrete unknown
operation id used by the spec scenario. -/
theorem C1_witness :
    (∃ r, (process_job_file (Except.ok ⟨some "not-a-real-op", []⟩) none "j1" true true
        envPlain false 10).1.resultWritten = some r ∧
      r.status = "error" ∧ r.error = some ("Operation not allowed: " ++ "not-a-real-op")) ∧
    (∀ cmd, DEvent.spawn cmd ∉
      (process_job_file (Except.ok ⟨some "not-a-real-op", []⟩) none "j1" true true
        envPlain false 10).1.events) :=
  C1_unknown_operation_rejected ⟨some "not-a-real-op", []⟩ "not-a-real-op" "j1" true true
    envPlain false 10 rfl (by decide) (by decide)

/-- C2: the argument vector of the spawned child is a function of the
registry entry for the operation id alone: two payloads agreeing on
`operation_id` produce identical spawn traces whatever their other
fields and whatever the job id, and every spawned command is the
maintenance script path followed by the fixed registry arguments. -/
theorem C2_spawned_command_from_registry_only (j1 j2 : JobJson) (wf : Option PExn)
    (jid1 jid2 : String) (mse enf : Bool) (env : WatchEnv) (flag0 : Bool) (fuel : Nat)
    (hagree : j1.operation_id = j2.operation_id) :
    spawnsOf (process_job_file (Except.ok j1) wf jid1 mse enf env flag0 fuel).1.events =
      spawnsOf (process_job_file (Except.ok j2) wf jid2 mse enf env flag0 fuel).1.events ∧
    (∀ cmd ∈ spawnsOf (process_job_file (Except.ok j1) wf jid1 mse enf env flag0 fuel).1.events,
      ∃ op args tS, j1.operation_id = some op ∧ lookupOp op = some (args, tS) ∧
        cmd = MAINTAIN_SH :: args) := by
  rw [spawnsOf_process_job_file, spawnsOf_process_job_file, hagree]
  constructor
  · rfl
  · rw [← hagree]
    intro cmd hcmd
    cases htr : truthy j1.operation_id with
    | false => simp [htr] at hcmd
    | true =>
      cases hop : j1.operation_id with
      | none => simp [truthy, hop] at htr
      | some op =>
        simp only [hop, Option.getD_some] at hcmd ⊢
        cases hlk : lookupOp op with
        | none => simp [htr, hlk] at hcmd
        | some p =>
          obtain ⟨args, tS⟩ := p
          rw [hop] at htr
          refine ⟨op, args, tS, rfl, hlk, ?_⟩
          simp only [htr, hlk, if_true] at hcmd
          by_cases hm : (mse && env.spawnFails.isNone) = true
          · simp only [hm, if_true, List.mem_singleton] at hcmd
            exact hcmd
          · have hm' : (mse && env.spawnFails.isNone) = false := by
              revert hm
              cases mse && env.spawnFails.isNone <;> simp
            simp [hm'] at hcmd

/-- C2 witness: two payloads with the same operation id but different
extra fields, different job ids, produce the same single spawned command,
which is the registry command. -/
theorem C2_witness :
    spawnsOf (process_job_file (Except.ok ⟨some "dns-flush", [("a", "1")]⟩) none "j1" true true
        envPlain false 10).1.events =
      spawnsOf (process_job_file (Except.ok ⟨some "dns-flush", [("b", "2"), ("c", "3")]⟩) none
        "j2" true true envPlain false 10).1.events ∧
    (∀ cmd ∈ spawnsOf (process_job_file (Except.ok ⟨some "dns-flush", [("a", "1")]⟩) none "j1"
        true true envPlain false 10).1.events,
      ∃ op args tS, (JobJson.mk (some "dns-flush") [("a", "1")]).operation_id = some op ∧
        lookupOp op = some (args, tS) ∧ cmd = MAINTAIN_SH :: args) :=
  C2_spawned_command_from_registry_only ⟨some "dns-flush", [("a", "1")]⟩
    ⟨some "dns-flush", [("b", "2"), ("c", "3")]⟩ none "j1" "j2" true true envPlain false 10 rfl

/-- C5: per-job processing never propagates an exception out of
`process_job_file` (the second component, the escaping exception, is
always `none`, so the supervisor loop continues with the next job), and
the job file is gone by the end of processing in every modelled outcome:
success, failure, rejection, unreadable content, and a raised exception
while writing the result. -/
theorem C5_job_file_always_deleted (readRes : Except PExn JobJson)
    (wf : Option PExn) (job_id : String) (mse enf : Bool) (env : WatchEnv)
    (flag0 : Bool) (fuel : Nat) :
    (process_job_file readRes wf job_id mse enf env flag0 fuel).2 = none ∧
    (process_job_file readRes wf job_id mse enf env flag0 fuel).1.jobDeleted = true := by
  refine ⟨rfl, ?_⟩
  cases readRes with
  | error e => rfl
  | ok job =>
    by_cases htr : truthy job.operation_id = false
    · simp [process_job_file, htr]
    · cases wf <;> simp [process_job_file, htr]

/-- C6: at daemon startup with stale-job cleanup at its default setting,
every job file whose modification age strictly exceeds the three-hundred
second stale threshold (and whose metadata is readable) is unlinked, no
Result file is ever written by the reconciler, and every job file at or
under that age is kept for normal processing. -/
theorem C6_stale_jobs_purged (now : Nat) (files : List JobFileInfo) (f : JobFileInfo)
    (hmem : f ∈ files) :
    (f.statOk = true → now - f.mtime > stale_threshold →
      f ∈ (cleanup_stale_jobs none now files).deleted ∧
        f ∉ (cleanup_stale_jobs none now files).kept) ∧
    (now - f.mtime ≤ stale_threshold →
      f ∈ (cleanup_stale_jobs none now files).kept ∧
        f ∉ (cleanup_stale_jobs none now files).deleted) ∧
    (cleanup_stale_jobs none now files).resultsWritten = [] := by
  have hset : clear_stale_jobs_setting none = true := by decide
  have hcs : cleanup_stale_jobs none now files =
      { kept := files.filter (fun g => !isStale now g),
        deleted := files.filter (fun g => isStale now g),
        resultsWritten := [] } := by
    simp [cleanup_stale_jobs, hset]
  rw [hcs]
  refine ⟨?_, ?_, rfl⟩
  · intro hstat hage
    have hstale : isStale now f = true := by
      simp [isStale, hstat, hage]
    refine ⟨List.mem_filter.mpr ⟨hmem, hstale⟩, ?_⟩
    intro hcon
    have h2 := (List.mem_filter.mp hcon).2
    rw [hstale] at h2
    simp at h2
  · intro hage
    have hstale : isStale now f = false := by
      have hd : decide (now - f.mtime > stale_threshold) = false := by
        simp only [decide_eq_false_iff_not]
        omega
      simp [isStale, hd]
    refine ⟨List.mem_filter.mpr ⟨hmem, by simp [hstale]⟩, ?_⟩
    intro hcon
    have h2 := (List.mem_filter.mp hcon).2
    rw [hstale] at h2
    exact Bool.noConfusion h2

/-- C6 witness: one ten-minute-old and one thirty-second-old job file at
startup time six hundred; the old one is purged, the fresh one kept, and
no result is written. -/
theorem C6_witness :
    ((JobFileInfo.mk "old.job.json" 0 true).statOk = true →
      600 - (JobFileInfo.mk "old.job.json" 0 true).mtime > stale_threshold →
      JobFileInfo.mk "old.job.json" 0 true ∈
        (cleanup_stale_jobs none 600
          [⟨"old.job.json", 0, true⟩, ⟨"new.job.json", 570, true⟩]).deleted ∧
      JobFileInfo.mk "old.job.json" 0 true ∉
        (cleanup_stale_jobs none 600
          [⟨"old.job.json", 0, true⟩, ⟨"new.job.json", 570, true⟩]).kept) ∧
    (600 - (JobFileInfo.mk "old.job.json" 0 true).mtime ≤ stale_threshold →
      JobFileInfo.mk "old.job.json" 0 true ∈
        (cleanup_stale_jobs none 600
          [⟨"old.job.json", 0, true⟩, ⟨"new.job.json", 570, true⟩]).kept ∧
      JobFileInfo.mk "old.job.json" 0 true ∉
        (cleanup_stale_jobs none 600
          [⟨"old.job.json", 0, true⟩, ⟨"new.job.json", 570, true⟩]).deleted) ∧
    (cleanup_stale_jobs none 600
      [⟨"old.job.json", 0, true⟩, ⟨"new.job.json", 570, true⟩]).resultsWritten = [] :=
  C6_stale_jobs_purged 600 [⟨"old.job.json", 0, true⟩, ⟨"new.job.json", 570, true⟩]
    ⟨"old.job.json", 0, true⟩ (by decide)

/-- C3 counterexample: a whitelisted operation whose child never exits
and whose elapsed time exceeds the timeout budget produces a Result with
the timeout sentinel exit code, but its status is the initial error
string, not the claimed timeout status: the timeout branch of the source
never reassigns the status field. -/
theorem C3_counterexample_status_stays_error :
    (run_operation "dns-flush" "job-1" true (enforce_timeout_setting none) envHang
        false 5).result.exit_code = some (-124) ∧
    (run_operation "dns-flush" "job-1" true (enforce_timeout_setting none) envHang
        false 5).result.status = "error" ∧
    ¬((run_operation "dns-flush" "job-1" true (enforce_timeout_setting none) envHang
        false 5).result.status = "timeout") := by
  refine ⟨by decide, by decide, by decide⟩

/-- C3 (amended): for every whitelisted job whose child is still running
when elapsed time exceeds the timeout budget, with timeout enforcement at
its default setting, the watchdog terminates the child (graceful SIGTERM,
SIGKILL when it survives the grace period, descendant cleanup) and the
Result has the timeout sentinel exit code; the status field, however,
keeps the value error rather than timeout. -/
theorem C3_amended_timeout_kills_with_error_status (op job_id : String)
    (args : List String) (tS : Nat) (env : WatchEnv) (fuel n : Nat)
    (hlk : lookupOp op = some (args, tS))
    (hsp : env.spawnFails = none)
    (hfuel : n < fuel)
    (hpoll : ∀ m, m ≤ n → pollExited env m = false)
    (hwrite : ∀ m, m ≤ n → env.flagWriteAt m = false)
    (hel : env.elapsedAt n > tS) :
    (run_operation op job_id true (enforce_timeout_setting none) env false
        fuel).result.exit_code = some (-124) ∧
    (run_operation op job_id true (enforce_timeout_setting none) env false
        fuel).result.status = "error" ∧
    DEvent.terminate ∈ (run_operation op job_id true (enforce_timeout_setting none) env false
        fuel).events ∧
    DEvent.pkillDescendants ∈ (run_operation op job_id true (enforce_timeout_setting none)
        env false fuel).events ∧
    (env.surviveTerm = true →
      DEvent.kill ∈ (run_operation op job_id true (enforce_timeout_setting none) env false
        fuel).events) := by
  have henf : enforce_timeout_setting none = true := by decide
  have hwl : watchLoop env (enforce_timeout_setting none) tS false 0 fuel =
      ⟨LoopOutcome.timeoutOut, false, timeoutEvents env⟩ := by
    apply watchLoop_timeout_fires env (enforce_timeout_setting none) tS n 0 fuel hfuel
    · intro m hm
      simpa using hpoll m hm
    · intro m hm
      simpa using hwrite m hm
    · refine ⟨n, le_refl n, ?_⟩
      simp [henf, hel]
  simp only [run_operation, hlk, hsp, hwl]
  refine ⟨rfl, rfl, ?_, ?_, ?_⟩
  · cases env.surviveTerm <;> simp [timeoutEvents]
  · cases env.surviveTerm <;> simp [timeoutEvents]
  · intro hst
    simp [timeoutEvents, hst]

/-- C3 witness: the amended theorem applied to a hung dns-flush child
whose clock is past the budget at tick 1. -/
theorem C3_amended_witness :
    (run_operation "dns-flush" "job-1" true (enforce_timeout_setting none) envHang
        false 5).result.exit_code = some (-124) ∧
    (run_operation "dns-flush" "job-1" true (enforce_timeout_setting none) envHang
        false 5).result.status = "error" ∧
    DEvent.terminate ∈ (run_operation "dns-flush" "job-1" true (enforce_timeout_setting none)
        envHang false 5).events ∧
    DEvent.pkillDescendants ∈ (run_operation "dns-flush" "job-1" true
        (enforce_timeout_setting none) envHang false 5).events ∧
    (envHang.surviveTerm = true →
      DEvent.kill ∈ (run_operation "dns-flush" "job-1" true (enforce_timeout_setting none)
        envHang false 5).events) :=
  C3_amended_timeout_kills_with_error_status "dns-flush" "job-1"
    ["--flush-dns", "--assume-yes"] 300 envHang 5 1 (by decide) rfl (by decide)
    (fun m _ => rfl) (fun m _ => rfl) (by decide)

/-- C4: if the skip sentinel is present at some watchdog tick while a
whitelisted job is still running (and the timeout guard has not fired at
or before that tick), the daemon deletes the sentinel, terminates the
child gracefully, kills it forcefully when it survives the grace period,
cleans up descendants, and the Result has status skipped with sentinel
exit code -125. -/
theorem C4_skip_sentinel_kills_job (op job_id : String) (args : List String)
    (tS : Nat) (enf : Bool) (env : WatchEnv) (flag0 : Bool) (fuel n : Nat)
    (hlk : lookupOp op = some (args, tS))
    (hsp : env.spawnFails = none)
    (hfuel : n < fuel)
    (hpoll : ∀ m, m ≤ n → pollExited env m = false)
    (htime : ∀ m, m ≤ n → (enf && decide (env.elapsedAt m > tS)) = false)
    (hflag : flag0 = true ∨ ∃ m, m ≤ n ∧ env.flagWriteAt m = true) :
    (run_operation op job_id true enf env flag0 fuel).result.status = "skipped" ∧
    (run_operation op job_id true enf env flag0 fuel).result.exit_code = some (-125) ∧
    (run_operation op job_id true enf env flag0 fuel).flagAfter = false ∧
    DEvent.deleteSkipFlag ∈ (run_operation op job_id true enf env flag0 fuel).events ∧
    DEvent.terminate ∈ (run_operation op job_id true enf env flag0 fuel).events ∧
    DEvent.pkillDescendants ∈ (run_operation op job_id true enf env flag0 fuel).events ∧
    (env.surviveTerm = true →
      DEvent.kill ∈ (run_operation op job_id true enf env flag0 fuel).events) := by
  have hwl : watchLoop env enf tS flag0 0 fuel =
      ⟨LoopOutcome.skipOut, false, skipEvents env⟩ := by
    apply watchLoop_skip_fires env enf tS n 0 flag0 fuel hfuel
    · intro m hm
      simpa using hpoll m hm
    · intro m hm
      simpa using htime m hm
    · rcases hflag with h | ⟨m, hm, hw⟩
      · exact Or.inl h
      · exact Or.inr ⟨m, hm, by simpa using hw⟩
  simp only [run_operation, hlk, hsp, hwl]
  refine ⟨rfl, rfl, rfl, ?_, ?_, ?_, ?_⟩
  · cases env.surviveTerm <;> simp [skipEvents]
  · cases env.surviveTerm <;> simp [skipEvents]
  · cases env.surviveTerm <;> simp [skipEvents]
  · intro hst
    simp [skipEvents, hst]

/-- C4 witness: a hung dns-flush child with the skip flag written before
tick 1 is skipped with sentinel exit code, events included. -/
theorem C4_witness :
    (run_operation "dns-flush" "job-1" true true envSkipReq false 5).result.status
        = "skipped" ∧
    (run_operation "dns-flush" "job-1" true true envSkipReq false 5).result.exit_code
        = some (-125) ∧
    (run_operation "dns-flush" "job-1" true true envSkipReq false 5).flagAfter = false ∧
    DEvent.deleteSkipFlag ∈ (run_operation "dns-flush" "job-1" true true envSkipReq
        false 5).events ∧
    DEvent.terminate ∈ (run_operation "dns-flush" "job-1" true true envSkipReq
        false 5).events ∧
    DEvent.pkillDescendants ∈ (run_operation "dns-flush" "job-1" true true envSkipReq
        false 5).events ∧
    (envSkipReq.surviveTerm = true →
      DEvent.kill ∈ (run_operation "dns-flush" "job-1" true true envSkipReq
        false 5).events) :=
  C4_skip_sentinel_kills_job "dns-flush" "job-1" ["--flush-dns", "--assume-yes"] 300
    true envSkipReq false 5 1 (by decide) rfl (by decide) (fun m _ => rfl)
    (by decide) (Or.inr ⟨1, le_refl 1, rfl⟩)

/-- C8: for every whitelisted job whose child exits on its own before the
skip sentinel is observed and before the timeout budget is exceeded, the
Result carries the captured stdout, stderr and exit code, with status
success exactly when the exit code is zero and failed for every nonzero
exit code. -/
theorem C8_exit_classification (op job_id : String) (args : List String) (tS : Nat)
    (enf : Bool) (env : WatchEnv) (fuel e : Nat)
    (hlk : lookupOp op = some (args, tS))
    (hsp : env.spawnFails = none)
    (hexit : env.exitsAt = some e)
    (hfuel : e < fuel)
    (hwrite : ∀ m, m < e → env.flagWriteAt m = false)
    (htime : ∀ m, m < e → (enf && decide (env.elapsedAt m > tS)) = false) :
    (run_operation op job_id true enf env false fuel).result.exit_code
        = some env.exitCode ∧
    (run_operation op job_id true enf env false fuel).result.stdout
        = some env.stdoutS ∧
    (run_operation op job_id true enf env false fuel).result.stderr
        = some env.stderrS ∧
    ((run_operation op job_id true enf env false fuel).result.status = "success"
        ↔ env.exitCode = 0) ∧
    (env.exitCode ≠ 0 →
      (run_operation op job_id true enf env false fuel).result.status = "failed") := by
  have hwl : watchLoop env enf tS false 0 fuel =
      ⟨LoopOutcome.exited, env.flagWriteAt (0 + e), []⟩ := by
    apply watchLoop_exit_fires env enf tS e 0 fuel hfuel
    · intro m hm
      simp only [Nat.zero_add, pollExited, hexit]
      simp
      omega
    · simp only [Nat.zero_add, pollExited, hexit]
      simp
    · intro m hm
      simpa using hwrite m hm
    · intro m hm
      simpa using htime m hm
  have hTF : ¬(true = false) := by simp
  simp only [run_operation, hlk, hsp, hwl, if_neg hTF]
  refine ⟨trivial, trivial, trivial, ?_, ?_⟩
  · by_cases h0 : env.exitCode = 0
    · simp [h0]
    · simp only [h0, if_false]
      constructor
      · intro hcon
        exact absurd hcon (by decide)
      · intro hcon
        exact hcon.elim
  · intro h0
    simp [h0]

/-- C8 witness: a child exiting at tick 2 with exit code 0 yields a
success result carrying its output. -/
theorem C8_witness :
    (run_operation "dns-flush" "job-1" true true envPlain false 5).result.exit_code
        = some envPlain.exitCode ∧
    (run_operation "dns-flush" "job-1" true true envPlain false 5).result.stdout
        = some envPlain.stdoutS ∧
    (run_operation "dns-flush" "job-1" true true envPlain false 5).result.stderr
        = some envPlain.stderrS ∧
    ((run_operation "dns-flush" "job-1" true true envPlain false 5).result.status
        = "success" ↔ envPlain.exitCode = 0) ∧
    (envPlain.exitCode ≠ 0 →
      (run_operation "dns-flush" "job-1" true true envPlain false 5).result.status
        = "failed") :=
  C8_exit_classification "dns-flush" "job-1" ["--flush-dns", "--assume-yes"] 300
    true envPlain 5 2 (by decide) rfl rfl (by decide) (fun m _ => rfl) (by decide)

/-- C7: while awaiting a result with no cancel or skip requested, a
result file that is present but unparseable is treated as not ready: the
loop keeps polling without raising, and once the file parses it returns
the parsed result and deletes the file; the await-timeout error is raised
only when no parseable result file was present at any poll up to the one
where the caller-supplied timeout had elapsed. -/
theorem C7_await_tolerates_unparseable_result (env : AwaitEnv) (t : Nat)
    (hnc : ∀ n, env.cancelAt n = false) (hns : ∀ n, env.skipAt n = false) :
    (∀ (N fuel : Nat) (r : RunResult), N < fuel →
      (∀ m, m < N → env.fileAt m = RFile.unparseable) →
      env.fileAt N = RFile.ready r →
      env.unlinkFails N = false →
      waitLoop env t 0 fuel = AwaitOutcome.got r true) ∧
    (∀ fuel : Nat, waitLoop env t 0 fuel = AwaitOutcome.timedOut →
      ∃ n, env.elapsedAt n > t ∧ ∀ m, m ≤ n → ∀ r, env.fileAt m ≠ RFile.ready r) := by
  constructor
  · intro N fuel r hfuel hunp hready hunl
    apply waitLoop_ready_fires env t r hnc hns N 0 fuel hfuel
    · intro m hm
      simpa using hunp m hm
    · simpa using hready
    · simpa using hunl
  · intro fuel h
    obtain ⟨n, _, hn2, hn3⟩ := waitLoop_timedOut_inv env t hnc hns fuel 0 h
    exact ⟨n, hn2, fun m hm r => hn3 m (Nat.zero_le m) hm r⟩

/-- C7 witness: with the result file unparseable for three polls and then
parseable, the await loop returns the parsed result and deletes the
file. -/
theorem C7_witness :
    waitLoop aenvRetry 1800 0 10 =
      AwaitOutcome.got ⟨"dns-flush", "success", none, some 0, none, none, none⟩ true :=
  (C7_await_tolerates_unparseable_result aenvRetry 1800 (fun _ => rfl) (fun _ => rfl)).1
    3 10 ⟨"dns-flush", "success", none, some 0, none, none, none⟩ (by decide)
    (by decide) rfl rfl

/-- C9 counterexample: an execution in which the skip sentinel is written
while job one is running but in the very tick where its child is observed
exited.  The sentinel is never consumed, job one completes with status
success, and job two, which starts executing strictly later than the
sentinel write, is terminated with status skipped: a sentinel written at
one point in time kills a job that starts executing later, contradicting
the claim that this never happens. -/
theorem C9_counterexample_sentinel_outlives_job :
    (run_operation "dns-flush" "job-1" true true envRace false 10).result.status
        = "success" ∧
    (run_operation "dns-flush" "job-1" true true envRace false 10).flagAfter = true ∧
    (run_operation "brew-update" "job-2" true true envLong
        (run_operation "dns-flush" "job-1" true true envRace false 10).flagAfter
        10).result.status = "skipped" ∧
    (run_operation "brew-update" "job-2" true true envLong
        (run_operation "dns-flush" "job-1" true true envRace false 10).flagAfter
        10).result.exit_code = some (-125) := by
  refine ⟨by decide, by decide, by decide, by decide⟩

/-- C9 (amended): whenever the watchdog actually observes the sentinel
and skips the running job (the run ends with status skipped), the
sentinel file is deleted in that same tick, so one observed sentinel
terminates at most the job during which it is observed.  A sentinel that
is written but never observed before the child exits, or while no job is
running, persists and will skip the next job whose watchdog observes
it. -/
theorem C9_amended_observed_sentinel_consumed (op jid : String) (mse enf : Bool)
    (env : WatchEnv) (flag0 : Bool) (fuel : Nat)
    (hskip : (run_operation op jid mse enf env flag0 fuel).result.status = "skipped") :
    (run_operation op jid mse enf env flag0 fuel).flagAfter = false := by
  cases hlk : lookupOp op with
  | none =>
    have h2 : (run_operation op jid mse enf env flag0 fuel).result.status = "error" := by
      simp [run_operation, hlk]
    rw [h2] at hskip
    exact absurd hskip (by decide)
  | some p =>
    obtain ⟨args, tS⟩ := p
    cases mse with
    | false =>
      have h2 : (run_operation op jid false enf env flag0 fuel).result.status = "error" := by
        simp [run_operation, hlk]
      rw [h2] at hskip
      exact absurd hskip (by decide)
    | true =>
      cases hsp : env.spawnFails with
      | some msg =>
        have h2 : (run_operation op jid true enf env flag0 fuel).result.status
            = "error" := by
          simp [run_operation, hlk, hsp]
        rw [h2] at hskip
        exact absurd hskip (by decide)
      | none =>
        cases ho : (watchLoop env enf tS flag0 0 fuel).outcome with
        | skipOut =>
          have h2 : (run_operation op jid true enf env flag0 fuel).flagAfter
              = (watchLoop env enf tS flag0 0 fuel).flag := by
            simp [run_operation, hlk, hsp, ho]
          rw [h2]
          exact watchLoop_skipOut_flag env enf tS fuel 0 flag0 ho
        | exited =>
          by_cases h0 : env.exitCode = 0
          · have h2 : (run_operation op jid true enf env flag0 fuel).result.status
                = "success" := by
              simp [run_operation, hlk, hsp, ho, h0]
            rw [h2] at hskip
            exact absurd hskip (by decide)
          · have h2 : (run_operation op jid true enf env flag0 fuel).result.status
                = "failed" := by
              simp [run_operation, hlk, hsp, ho, h0]
            rw [h2] at hskip
            exact absurd hskip (by decide)
        | timeoutOut =>
          have h2 : (run_operation op jid true enf env flag0 fuel).result.status
              = "error" := by
            simp [run_operation, hlk, hsp, ho]
          rw [h2] at hskip
          exact absurd hskip (by decide)
        | fuelOut =>
          have h2 : (run_operation op jid true enf env flag0 fuel).result.status
              = "error" := by
            simp [run_operation, hlk, hsp, ho]
          rw [h2] at hskip
          exact absurd hskip (by decide)

/-- C9 witness: the amended consumption property applied to a run that is
actually skipped. -/
theorem C9_amended_witness :
    (run_operation "dns-flush" "job-1" true true envSkipReq false 5).flagAfter = false :=
  C9_amended_observed_sentinel_consumed "dns-flush" "job-1" true true envSkipReq
    false 5 (by decide)

/-- C10: a job file whose content fails to parse as JSON, or parses but
lacks a truthy `operation_id`, is deleted without any result file being
written for its job id; a client awaiting that job id with the result
file never appearing and no cancel or skip requested can only terminate
through its own await timeout. -/
theorem C10_invalid_jobs_consumed_silently :
    (∀ (readRes : Except PExn JobJson) (wf : Option PExn) (jid : String)
        (mse enf : Bool) (env : WatchEnv) (flag0 : Bool) (fuel : Nat),
      (readRes = Except.error PExn.jsonDecode ∨
        ∃ j, readRes = Except.ok j ∧ truthy j.operation_id = false) →
      (process_job_file readRes wf jid mse enf env flag0 fuel).1.resultWritten = none ∧
      (process_job_file readRes wf jid mse enf env flag0 fuel).1.jobDeleted = true) ∧
    (∀ (aenv : AwaitEnv) (t fuel : Nat),
      (∀ n, aenv.cancelAt n = false) → (∀ n, aenv.skipAt n = false) →
      (∀ n, aenv.fileAt n = RFile.absent) →
      (waitLoop aenv t 0 fuel = AwaitOutcome.timedOut ∨
        waitLoop aenv t 0 fuel = AwaitOutcome.stillPolling)) := by
  constructor
  · intro readRes wf jid mse enf env flag0 fuel hbad
    rcases hbad with h | ⟨j, hj, htr⟩
    · subst h
      exact ⟨rfl, rfl⟩
    · subst hj
      constructor
      · simp [process_job_file, htr]
      · simp [process_job_file, htr]
  · intro aenv t fuel hnc hns habs
    exact waitLoop_absent_no_result aenv t hnc hns habs fuel 0

/-- C10 witness: an unparseable job file is consumed with no result
written, and an await over an absent result file with a small timeout
either raises the timeout error or is still polling. -/
theorem C10_witness :
    ((process_job_file (Except.error PExn.jsonDecode) none "j1" true true envPlain
        false 10).1.resultWritten = none ∧
      (process_job_file (Except.error PExn.jsonDecode) none "j1" true true envPlain
        false 10).1.jobDeleted = true) ∧
    (waitLoop aenvAbsent 2 0 10 = AwaitOutcome.timedOut ∨
      waitLoop aenvAbsent 2 0 10 = AwaitOutcome.stillPolling) :=
  ⟨C10_invalid_jobs_consumed_silently.1 (Except.error PExn.jsonDecode) none "j1" true true
      envPlain false 10 (Or.inl rfl),
    C10_invalid_jobs_consumed_silently.2 aenvAbsent 2 10 (fun _ => rfl) (fun _ => rfl)
      (fun _ => rfl)⟩

end Upkeep
